import Mathlib

/-!
Verification of the BMI Calculator core logic (src/main.py).

The computational core of the program is a handful of pure functions:
unit conversions, BMI computation, band classification, a recommendation
lookup table, and a chart marker clamp. We embed them shallowly over the
rationals; the IEEE NaN sentinel used by the Python code for an undefined
BMI is modelled as `Option ℚ` with `none` playing the role of NaN, since
NaN carries no numeric information and is only ever tested via
`math.isnan`. Severity tones are the lowercase strings the code uses
("info", "ok", "warn", "alert"), corresponding to the spec's Info, Ok,
Warn, Alert.
-/

/-- Embeds `kg_from_lbs` (src/main.py line 83): pounds to kilograms. -/
def kg_from_lbs (pounds : ℚ) : ℚ :=
  pounds * 0.45359237

/-- Embeds `meters_from_inches` (src/main.py line 87): inches to meters. -/
def meters_from_inches (inches : ℚ) : ℚ :=
  inches * 0.0254

/-- Embeds `bmi` (src/main.py line 91): weight over height squared,
`none` (the NaN sentinel) when either input is non-positive. -/
def bmi (weight_kg height_m : ℚ) : Option ℚ :=
  if height_m ≤ 0 ∨ weight_kg ≤ 0 then none
  else some (weight_kg / height_m ^ 2)

/-- Embeds `classify_bmi` (src/main.py line 98): maps a BMI value (or
the NaN sentinel) to a (category, tone) pair by an ascending chain of
strict upper-bound tests. -/
def classify_bmi : Option ℚ → String × String
  | none => ("—", "info")
  | some b =>
    if b < 18.5 then ("Underweight", "info")
    else if b < 25.0 then ("Normal", "ok")
    else if b < 30.0 then ("Overweight", "warn")
    else ("Obese", "alert")

/-- Embeds `recommendations` (src/main.py line 111): a static dictionary
lookup keyed by category label, with `recs.get(category, [])` returning
the empty list for any key not in the table. -/
def recommendations (category : String) : List String :=
  if category = "Underweight" then
    ["Discuss weight goals with a clinician or dietitian.",
     "Increase nutrient-dense calories; emphasize lean proteins and complex carbs.",
     "Screen for underlying causes (e.g., thyroid, malabsorption).",
     "Incorporate progressive resistance training."]
  else if category = "Normal" then
    ["Maintain balanced diet per evidence-based guidelines.",
     "Target ≥150 minutes/week of moderate activity.",
     "Prioritize sleep hygiene and stress management.",
     "Continue routine preventive care."]
  else if category = "Overweight" then
    ["Adopt calorie-aware, whole-food eating patterns.",
     "Increase physical activity; combine aerobic and strength training.",
     "Set incremental goals (e.g., 5–7% weight reduction).",
     "Consider coaching or registered dietitian support."]
  else if category = "Obese" then
    ["Partner with a clinician for a comprehensive plan.",
     "Combine nutrition therapy, activity, and behavior strategies.",
     "Discuss adjuncts when appropriate (pharmacotherapy, bariatric referral).",
     "Address comorbidities (HTN, T2DM, OSA) and monitor regularly."]
  else if category = "—" then []
  else []

/-- A row of the static band table `BMI_BANDS` (src/main.py line 24):
(label, lower bound inclusive, upper bound exclusive, color). The upper
bound is `none` for `float("inf")` on the Obese row. -/
structure Band where
  label : String
  lower : ℚ
  upper : Option ℚ
  color : String
deriving DecidableEq

/-- Embeds the constant `BMI_BANDS` (src/main.py line 24). -/
def BMI_BANDS : List Band :=
  [⟨"Underweight", 0, some 18.5, "#1976D2"⟩,
   ⟨"Normal", 18.5, some 25.0, "#2E7D32"⟩,
   ⟨"Overweight", 25.0, some 30.0, "#ED6C02"⟩,
   ⟨"Obese", 30.0, none, "#C62828"⟩]

/-- Membership of a BMI value in a band's half-open interval
[lower, upper), with `upper = none` read as +infinity. -/
def bandContains (b : ℚ) (band : Band) : Bool :=
  decide (band.lower ≤ b) &&
    (match band.upper with
     | none => true
     | some u => decide (b < u))

/-- Embeds `np.clip(x, lo, hi)`: values below `lo` map to `lo`, values
above `hi` map to `hi`. -/
def np_clip (x lo hi : ℚ) : ℚ :=
  min (max x lo) hi

/-- Embeds the marker computation of `render_band_chart`
(src/main.py line 155): the BMI value, with the NaN sentinel replaced by
0, clipped into the display domain [10.0, 40.0]. -/
def chart_marker (bmi_value : Option ℚ) : ℚ :=
  np_clip (match bmi_value with | none => 0 | some b => b) 10.0 40.0

/-- Round-half-to-even on a rational, as Python's built-in `round`
behaves at ties. -/
def roundHalfEven (x : ℚ) : ℤ :=
  let f := Int.floor x
  let frac := x - f
  if frac < 1 / 2 then f
  else if 1 / 2 < frac then f + 1
  else if f % 2 = 0 then f else f + 1

/-- Embeds Python's `round(x, 1)`: round to one decimal place with
half-to-even tie-breaking. -/
def round1 (x : ℚ) : ℚ :=
  (roundHalfEven (10 * x) : ℚ) / 10

/-- Embeds the compute step of `main` for metric input
(src/main.py lines 211, 212, 226): height in centimeters is divided by
100, and the BMI is rounded to one decimal place before classification
when both normalized inputs are positive, NaN otherwise. -/
def main_bmi_metric (height_cm weight_kg : ℚ) : Option ℚ :=
  let height_m := height_cm / 100
  let weight := weight_kg
  if height_m > 0 ∧ weight > 0 then Option.map round1 (bmi weight height_m)
  else none

/-- C1: For every real (non-NaN) BMI value b, `classify_bmi` returns the
band of the half-open interval containing b, with the fixed tone mapping
Underweight/info, Normal/ok, Overweight/warn, Obese/alert; a value
exactly at a boundary (18.5, 25.0, 30.0) belongs to the upper band. -/
theorem classify_bmi_bands (b : ℚ) :
    (b < 18.5 → classify_bmi (some b) = ("Underweight", "info")) ∧
    (18.5 ≤ b → b < 25.0 → classify_bmi (some b) = ("Normal", "ok")) ∧
    (25.0 ≤ b → b < 30.0 → classify_bmi (some b) = ("Overweight", "warn")) ∧
    (30.0 ≤ b → classify_bmi (some b) = ("Obese", "alert")) := by
  simp only [classify_bmi]
  refine ⟨fun h => ?_, fun h1 h2 => ?_, fun h1 h2 => ?_, fun h1 => ?_⟩
  · rw [if_pos h]
  · rw [if_neg (not_lt.mpr h1), if_pos h2]
  · rw [if_neg (not_lt.mpr (by linarith)), if_neg (not_lt.mpr h1), if_pos h2]
  · rw [if_neg (not_lt.mpr (by linarith)), if_neg (not_lt.mpr (by linarith)),
      if_neg (not_lt.mpr h1)]

/-- Witness for C1 at the boundaries 18.5 and 30.0. -/
theorem classify_bmi_bands_witness :
    classify_bmi (some 18.5) = ("Normal", "ok") ∧
    classify_bmi (some 30.0) = ("Obese", "alert") :=
  ⟨(classify_bmi_bands 18.5).2.1 (by norm_num) (by norm_num),
   (classify_bmi_bands 30.0).2.2.2 (by norm_num)⟩

/-- C2: for positive weight and height, `bmi` returns exactly
weight divided by height squared. -/
theorem bmi_pos_formula (weight_kg height_m : ℚ)
    (hw : 0 < weight_kg) (hh : 0 < height_m) :
    bmi weight_kg height_m = some (weight_kg / height_m ^ 2) := by
  unfold bmi
  rw [if_neg (by push_neg; exact ⟨hh, hw⟩)]

/-- Witness for C2 at weight 70 kg and height 1.7 m. -/
theorem bmi_pos_formula_witness : bmi 70 1.7 = some (70 / 1.7 ^ 2) :=
  bmi_pos_formula 70 1.7 (by norm_num) (by norm_num)

/-- C3: for non-positive height or weight, `bmi` returns the undefined
sentinel (`none`, modelling NaN) rather than raising an exception; the
function is total over all rational inputs. -/
theorem bmi_nonpos_undefined (weight_kg height_m : ℚ)
    (h : height_m ≤ 0 ∨ weight_kg ≤ 0) :
    bmi weight_kg height_m = none := by
  unfold bmi
  rw [if_pos h]

/-- Witness for C3 at weight 0 and height 1.7. -/
theorem bmi_nonpos_undefined_witness : bmi 0 1.7 = none :=
  bmi_nonpos_undefined 0 1.7 (Or.inr le_rfl)

/-- C4: on the undefined sentinel (NaN), `classify_bmi` returns the
neutral placeholder ("—", info) instead of an error; together with the
band cases the classifier is totally defined. -/
theorem classify_bmi_undefined : classify_bmi none = ("—", "info") := rfl

/-- C5: end-to-end metric pipeline with round-before-classify: height
170 cm normalizes to 1.70 m, the BMI 70 / 1.7 ^ 2 = 24.221... rounds to
24.2, which classifies as ("Normal", "ok"), and the recommendation
lookup for that category returns 4 entries. -/
theorem end_to_end_metric :
    (170 : ℚ) / 100 = 1.70 ∧
    main_bmi_metric 170 70 = some 24.2 ∧
    classify_bmi (main_bmi_metric 170 70) = ("Normal", "ok") ∧
    (recommendations (classify_bmi (main_bmi_metric 170 70)).1).length = 4 := by
  have h : main_bmi_metric 170 70 = some 24.2 := by
    norm_num [main_bmi_metric, bmi, round1, roundHalfEven]
  have hc : classify_bmi (some 24.2) = ("Normal", "ok") := by
    norm_num [classify_bmi]
  refine ⟨by norm_num, h, ?_, ?_⟩
  · rw [h, hc]
  · rw [h, hc]
    rfl

/-- C6: the recommendation table maps the placeholder "—" to the empty
sequence, each of the four category labels to exactly 4 entries (a fixed
list, hence deterministic across calls), and any unknown label to the
empty sequence rather than an error. -/
theorem recommendations_table :
    recommendations "—" = [] ∧
    (recommendations "Underweight").length = 4 ∧
    (recommendations "Normal").length = 4 ∧
    (recommendations "Overweight").length = 4 ∧
    (recommendations "Obese").length = 4 ∧
    (∀ category : String,
      category ∉ ["Underweight", "Normal", "Overweight", "Obese", "—"] →
      recommendations category = []) := by
  refine ⟨rfl, rfl, rfl, rfl, rfl, fun c hc => ?_⟩
  simp only [List.mem_cons, List.not_mem_nil, or_false, not_or] at hc
  obtain ⟨h1, h2, h3, h4, h5⟩ := hc
  simp [recommendations, h1, h2, h3, h4, h5]

/-- Witness for C6 at an unknown label. -/
theorem recommendations_table_witness : recommendations "Unknown" = [] :=
  recommendations_table.2.2.2.2.2 "Unknown" (by simp)

/-- C7: the chart marker is the BMI value clamped into the display
domain [10.0, 40.0]; an input of 5.0 gives 10.0, an input of 50.0 gives
40.0, and the undefined sentinel defaults to 0 before clamping, hence
also gives 10.0 (a visible marker at the lower bound). -/
theorem chart_marker_spec :
    (∀ b : ℚ, 10.0 ≤ b → b ≤ 40.0 → chart_marker (some b) = b) ∧
    (∀ b : ℚ, b ≤ 10.0 → chart_marker (some b) = 10.0) ∧
    (∀ b : ℚ, 40.0 ≤ b → chart_marker (some b) = 40.0) ∧
    chart_marker (some 5) = 10.0 ∧
    chart_marker (some 50) = 40.0 ∧
    chart_marker none = 10.0 := by
  refine ⟨fun b h1 h2 => ?_, fun b h => ?_, fun b h => ?_, ?_, ?_, ?_⟩
  · unfold chart_marker np_clip
    rw [max_eq_left h1, min_eq_left h2]
  · unfold chart_marker np_clip
    rw [max_eq_right h, min_eq_left (by norm_num)]
  · unfold chart_marker np_clip
    rw [max_eq_left (by linarith), min_eq_right h]
  · norm_num [chart_marker, np_clip]
  · norm_num [chart_marker, np_clip]
  · norm_num [chart_marker, np_clip]

/-- Witness for C7 at a BMI of 24.2 inside the display domain. -/
theorem chart_marker_spec_witness : chart_marker (some 24.2) = 24.2 :=
  chart_marker_spec.1 24.2 (by norm_num) (by norm_num)

/-- C8: the unit conversions are the fixed multiplications by
0.45359237 (kilograms per pound) and 0.0254 (meters per inch), written
here with explicit rational constants; they are total over ℚ with no
bounds checking. -/
theorem unit_conversions (pounds inches : ℚ) :
    kg_from_lbs pounds = pounds * (45359237 / 100000000) ∧
    meters_from_inches inches = inches * (254 / 10000) := by
  constructor <;> norm_num [kg_from_lbs, meters_from_inches]

/-- C9: for every non-negative b, exactly one row of the static table
`BMI_BANDS` contains b in its half-open interval, and the label returned
by `classify_bmi` equals that row's label. -/
theorem classify_matches_bands (b : ℚ) (hb : 0 ≤ b) :
    (BMI_BANDS.filter (bandContains b)).map Band.label
      = [(classify_bmi (some b)).1] := by
  rcases lt_or_le b 18.5 with h1 | h1
  · have n3 : ¬(25.0 ≤ b) := not_le.mpr (by linarith)
    have n4 : ¬(30.0 ≤ b) := not_le.mpr (by linarith)
    simp [BMI_BANDS, bandContains, classify_bmi, List.filter,
      hb, h1, not_le.mpr h1, n3, n4]
  rcases lt_or_le b 25.0 with h2 | h2
  · have n4 : ¬(30.0 ≤ b) := not_le.mpr (by linarith)
    simp [BMI_BANDS, bandContains, classify_bmi, List.filter,
      hb, h1, h2, not_lt.mpr h1, not_le.mpr h2, n4]
  rcases lt_or_le b 30.0 with h3 | h3
  · simp [BMI_BANDS, bandContains, classify_bmi, List.filter,
      hb, h2, h3, not_lt.mpr h1, not_lt.mpr h2, not_le.mpr h3]
  · simp [BMI_BANDS, bandContains, classify_bmi, List.filter,
      hb, h3, not_lt.mpr h1, not_lt.mpr h2, not_lt.mpr h3]

/-- Witness for C9 at b = 24.2. -/
theorem classify_matches_bands_witness :
    (BMI_BANDS.filter (bandContains 24.2)).map Band.label
      = [(classify_bmi (some 24.2)).1] :=
  classify_matches_bands 24.2 (by norm_num)

/-- C10: `classify_bmi` accepts negative (non-NaN) BMI values and places
them in the lowest band, returning ("Underweight", "info"). -/
theorem classify_bmi_negative (b : ℚ) (h : b < 0) :
    classify_bmi (some b) = ("Underweight", "info") := by
  simp only [classify_bmi]
  rw [if_pos (by linarith)]

/-- Witness for C10 at b = -1. -/
theorem classify_bmi_negative_witness :
    classify_bmi (some (-1)) = ("Underweight", "info") :=
  classify_bmi_negative (-1) (by norm_num)
